import Mathlib

/-
  Shallow embedding of the MCA CC6UL UART driver core
  (src/drivers/tty/serial/mca-cc6ul-uart.c).

  The driver operates a UART whose registers sit behind a slow I2C bus
  (regmap).  Every register access is modelled as an oracle input: an
  `Option` value for a read (none = transient bus failure), a `Bool` for a
  write succeeding.  Machine integers are modelled as `Nat` with explicit
  bit operations; register values are 8-bit quantities but none of the
  operations below can overflow, so no masking is required.
-/

namespace McaUart

/-! ## Constants from the source file -/

/-- `MCA_UART_RX_FIFO_SIZE` (mca-cc6ul-uart.c line 38). -/
def MCA_UART_RX_FIFO_SIZE : Nat := 128

/-- `MCA_UART_TX_FIFO_SIZE` (mca-cc6ul-uart.c line 39). -/
def MCA_UART_TX_FIFO_SIZE : Nat := 128

/-- `MCA_UART_DEFAULT_BRATE` (mca-cc6ul-uart.c line 34). -/
def MCA_UART_DEFAULT_BRATE : Nat := 9600

/-- `WORK_STOP_RX = BIT(0)` from the pending-work enum in the source. -/
def WORK_STOP_RX : Nat := 1

/-- `WORK_STOP_TX = BIT(1)` from the pending-work enum in the source. -/
def WORK_STOP_TX : Nat := 2

/-- `WORK_SET_RTS = BIT(2)` from the pending-work enum in the source. -/
def WORK_SET_RTS : Nat := 4

/-- `WORK_CLEAR_RTS = BIT(3)` from the pending-work enum in the source. -/
def WORK_CLEAR_RTS : Nat := 8

/-! ## Register bit constants

Modelled from the spec: the MCA register-definition headers
(`linux/mfd/mca-common/registers.h`, `linux/mfd/mca-cc6ul/registers.h`) are
part of this kernel tree but are not under `src/`; the spec says exact bit
positions are device-specific and out of scope, so each named bit is
modelled as a distinct single-bit mask.  All reasoning below depends only
on the bits being distinct, never on their positions. -/

/-- Modelled from the spec: interrupt-enable bit for TX-holding-ready. -/
def MCA_REG_UART_IER_THR : Nat := 1

/-- Modelled from the spec: interrupt-enable bit for RX-holding-ready. -/
def MCA_REG_UART_IER_RHR : Nat := 2

/-- Modelled from the spec: interrupt-enable bit for line-status errors. -/
def MCA_REG_UART_IER_RLSE : Nat := 4

/-- Modelled from the spec: interrupt-status bit for TX-holding-ready. -/
def MCA_REG_UART_IIR_THR : Nat := 1

/-- Modelled from the spec: interrupt-status bit for RX-holding-ready. -/
def MCA_REG_UART_IIR_RHR : Nat := 2

/-- Modelled from the spec: interrupt-status bit for line-status errors. -/
def MCA_REG_UART_IIR_RLSE : Nat := 4

/-- Modelled from the spec: CFG0 bit enabling the UART block. -/
def MCA_REG_UART_CFG0_ENABLE : Nat := 1

/-- Modelled from the spec: CFG0 bit that resets (clears) the TX FIFO. -/
def MCA_REG_UART_CFG0_CTX : Nat := 2

/-- Modelled from the spec: CFG0 bit that resets (clears) the RX FIFO. -/
def MCA_REG_UART_CFG0_CRX : Nat := 4

/-- Modelled from the spec: CFG0 bit enabling the transmitter. -/
def MCA_REG_UART_CFG0_TXEN : Nat := 8

/-- Modelled from the spec: CFG0 bit enabling the receiver. -/
def MCA_REG_UART_CFG0_RXEN : Nat := 16

/-- Modelled from the spec: modem-status-register RTS bit. -/
def MCA_REG_UART_MSR_RTS : Nat := 1

/-- Modelled from the spec: per-byte error code for no error. -/
def MCA_REG_UART_LSR_NO_ERROR : Nat := 0

/-- Modelled from the spec: per-byte error code for a framing error. -/
def MCA_REG_UART_LSR_FRAMING_ERROR : Nat := 1

/-- Modelled from the spec: per-byte error code for a parity error. -/
def MCA_REG_UART_LSR_PARITY_ERROR : Nat := 2

/-- Modelled from the spec: per-byte error code for a FIFO overrun. -/
def MCA_REG_UART_LSR_FIFO_OR_ERROR : Nat := 4

/-- Modelled from the spec: per-byte error code for a break condition. -/
def MCA_REG_UART_LSR_BREAK : Nat := 8

/-- Modelled from the spec: per-byte error code for a hardware overrun. -/
def MCA_REG_UART_LSR_HW_OR_ERROR : Nat := 16

/-! ## Kernel interface constants

These come from the Linux uapi / serial-core headers consumed by the
driver (external collaborators per the spec), with their actual kernel
values. -/

/-- `TIOCSER_TEMT` (transmitter empty) from the kernel termios uapi. -/
def TIOCSER_TEMT : Nat := 1

/-- `TTY_NORMAL` line-discipline flag. -/
def TTY_NORMAL : Nat := 0

/-- `TTY_BREAK` line-discipline flag. -/
def TTY_BREAK : Nat := 1

/-- `TTY_FRAME` line-discipline flag. -/
def TTY_FRAME : Nat := 2

/-- `TTY_PARITY` line-discipline flag. -/
def TTY_PARITY : Nat := 3

/-- `TTY_OVERRUN` line-discipline flag. -/
def TTY_OVERRUN : Nat := 4

/-- `WAKEUP_CHARS` low-water mark from `serial_core.h`. -/
def WAKEUP_CHARS : Nat := 256

/-- Value semantics of `regmap_update_bits(addr, mask, val)`: the bits of
`mask` in the old register value are replaced by the corresponding bits of
`val`.  `old ^^^ (old &&& mask)` is `old` with the mask bits cleared. -/
def regmapUpdateBits (old mask val : Nat) : Nat :=
  (old ^^^ (old &&& mask)) ||| (val &&& mask)

/-! ## TX Engine: `mca_uart_handle_tx` (lines 411-477)

The circular transmit buffer is modelled as the list of pending bytes, in
order, starting at the tail index; consuming `n` bytes advances the tail
by `n` (the C code advances it one byte per loop iteration, modulo
`UART_XMIT_SIZE`). -/

/-- Oracle inputs of one `mca_uart_handle_tx` invocation. -/
structure TxInput where
  /-- `port->state->port.tty` is non-NULL. -/
  ttyPresent : Bool
  /-- `uart_tx_stopped(port)`: channel flow-stopped. -/
  txStopped : Bool
  /-- Pending bytes of the circular buffer `xmit`, tail first. -/
  xmitBuf : List Nat
  /-- Result of `regmap_read(MCA_REG_UART_TXLVL)`; `none` = bus failure. -/
  txlvlRead : Option Nat
  /-- `regmap_bulk_write(MCA_REG_UART_THR, ...)` succeeds. -/
  bulkWriteOk : Bool
  /-- `work_pending(&mca_uart->tx_work)` at the reschedule points. -/
  txWorkPending : Bool

/-- Observable outcome of one `mca_uart_handle_tx` invocation. -/
structure TxResult where
  /-- Number of byte slots the circular-buffer tail advanced. -/
  tailAdvance : Nat
  /-- Increment applied to `port->icount.tx`. -/
  txCount : Nat
  /-- Bytes copied into the linear staging buffer `tx_buf`. -/
  staged : List Nat
  /-- Number of `regmap_bulk_write` calls issued to `MCA_REG_UART_THR`. -/
  bulkWrites : Nat
  /-- A TX-engine run is queued when the invocation returns
  (`work_pending` already true, or `schedule_work` was called). -/
  txWorkQueuedAfter : Bool
  /-- `dev_err` for the failed TXLVL read was emitted. -/
  loggedReadFail : Bool
  /-- `dev_dbg "TX FIFO is full"` was emitted. -/
  loggedFifoFull : Bool
  /-- `dev_err "Invalid MCA_REG_UART_TXLVL value"` was emitted. -/
  loggedInvalidLvl : Bool
  /-- `dev_err` for the failed bulk write was emitted. -/
  loggedWriteFail : Bool
  /-- `uart_write_wakeup` was called. -/
  wakeup : Bool
  deriving Repr, DecidableEq

/-- The no-op result of the early `return` paths of `mca_uart_handle_tx`. -/
def txNoop (queued : Bool) : TxResult :=
  { tailAdvance := 0, txCount := 0, staged := [], bulkWrites := 0,
    txWorkQueuedAfter := queued, loggedReadFail := false,
    loggedFifoFull := false, loggedInvalidLvl := false,
    loggedWriteFail := false, wakeup := false }

/-- Shallow embedding of `mca_uart_handle_tx` (lines 411-477). -/
def mca_uart_handle_tx (inp : TxInput) : TxResult :=
  if !inp.ttyPresent || inp.xmitBuf.isEmpty || inp.txStopped then
    txNoop inp.txWorkPending
  else
    let to_send := inp.xmitBuf.length
    if to_send ≠ 0 then
      let txlen := match inp.txlvlRead with
        | none => 0
        | some v => v
      let loggedRead := inp.txlvlRead.isNone
      if txlen = 0 then
        { txNoop true with
          loggedReadFail := loggedRead
          loggedFifoFull := true }
      else if txlen > MCA_UART_TX_FIFO_SIZE then
        { txNoop true with
          loggedReadFail := loggedRead
          loggedInvalidLvl := true }
      else
        let n := if to_send > txlen then txlen else to_send
        { tailAdvance := n, txCount := n, staged := inp.xmitBuf.take n,
          bulkWrites := 1, txWorkQueuedAfter := inp.txWorkPending,
          loggedReadFail := loggedRead, loggedFifoFull := false,
          loggedInvalidLvl := false, loggedWriteFail := !inp.bulkWriteOk,
          wakeup := inp.xmitBuf.length - n < WAKEUP_CHARS }
    else
      { txNoop inp.txWorkPending with
        wakeup := inp.xmitBuf.length < WAKEUP_CHARS }

/-! ## RX Engine: `mca_uart_handle_rx` (lines 479-578)

A bulk read of `n` bytes is modelled as an `Option (Nat → Nat)` oracle:
`none` is a bus failure, `some f` returns byte `f i` at offset `i`
(`regmap_bulk_read` fills exactly the requested number of bytes on
success). -/

/-- Oracle inputs of one `mca_uart_handle_rx` invocation. -/
structure RxInput where
  /-- The `has_errors` argument (IIR had the RLSE bit). -/
  has_errors : Bool
  /-- Result of `regmap_read(MCA_REG_UART_RXLVL)`. -/
  rxlvlRead : Option Nat
  /-- Result of `regmap_read(MCA_REG_UART_LSR)`. -/
  lsrRead : Option Nat
  /-- `regmap_bulk_read(MCA_REG_UART_RX_ERRORS, ..., rxlen)`. -/
  errBulkRead : Option (Nat → Nat)
  /-- First `regmap_bulk_read(MCA_REG_UART_RHR, ..., rxlen)`. -/
  dataBulkRead1 : Option (Nat → Nat)
  /-- Retry `regmap_bulk_read(MCA_REG_UART_RHR, ..., rxlen)`. -/
  dataBulkRead2 : Option (Nat → Nat)
  /-- `uart_handle_sysrq_char(port, ch)` consumes byte value `ch`. -/
  sysrq : Nat → Bool
  /-- `tty_insert_flip_char` succeeds for the n-th insertion attempt. -/
  ttyAccept : Nat → Bool

/-- Counters mutated by the per-byte loop of `mca_uart_handle_rx`. -/
structure RxCounters where
  /-- Bytes successfully pushed to the flip buffer, with their TTY flag. -/
  pushed : List (Nat × Nat)
  /-- Bytes consumed by `uart_handle_sysrq_char` (the `continue` path). -/
  sysrqConsumed : Nat
  /-- Increment of `port->icount.frame`. -/
  frame : Nat
  /-- Increment of `port->icount.parity`. -/
  parity : Nat
  /-- Increment of `port->icount.overrun`. -/
  overrun : Nat
  /-- Increment of `port->icount.brk`. -/
  brk : Nat
  /-- Bytes left unprocessed when `tty_insert_flip_char` failed and the
  loop hit `break` (the rejected byte itself included). -/
  droppedAfterReject : Nat
  /-- `dev_err "tty_insert_flip_char failed"` was emitted. -/
  loggedInsertFail : Bool
  deriving Repr, DecidableEq

/-- All-zero loop counters. -/
def rxCountersInit : RxCounters :=
  { pushed := [], sysrqConsumed := 0, frame := 0, parity := 0,
    overrun := 0, brk := 0, droppedAfterReject := 0,
    loggedInsertFail := false }

/-- The error-code switch of the per-byte loop (lines 543-566): TTY flag
for one byte plus the error-counter increment it performs. -/
def rxClassify (err : Nat) (acc : RxCounters) : Nat × RxCounters :=
  if err = MCA_REG_UART_LSR_FRAMING_ERROR then
    (TTY_FRAME, { acc with frame := acc.frame + 1 })
  else if err = MCA_REG_UART_LSR_PARITY_ERROR then
    (TTY_PARITY, { acc with parity := acc.parity + 1 })
  else if err = MCA_REG_UART_LSR_FIFO_OR_ERROR then
    (TTY_OVERRUN, { acc with overrun := acc.overrun + 1 })
  else if err = MCA_REG_UART_LSR_BREAK ∨ err = MCA_REG_UART_LSR_HW_OR_ERROR then
    (TTY_BREAK, { acc with brk := acc.brk + 1 })
  else
    (TTY_NORMAL, acc)

/-- The per-byte loop of `mca_uart_handle_rx` (lines 536-575), over the
list of (data byte, error code) pairs still to process.  `ins` counts the
`tty_insert_flip_char` calls already made (the argument to the acceptance
oracle). -/
def rxLoop (inp : RxInput) : List (Nat × Nat) → Nat → RxCounters → RxCounters
  | [], _, acc => acc
  | (ch, err) :: rest, ins, acc =>
    if inp.sysrq ch then
      rxLoop inp rest ins { acc with sysrqConsumed := acc.sysrqConsumed + 1 }
    else
      let fl :=
        if inp.has_errors then rxClassify err acc
        else (TTY_NORMAL, acc)
      if inp.ttyAccept ins then
        rxLoop inp rest (ins + 1)
          { fl.2 with pushed := fl.2.pushed ++ [(ch, fl.1)] }
      else
        { fl.2 with
          overrun := fl.2.overrun + 1
          droppedAfterReject := fl.2.droppedAfterReject + rest.length + 1
          loggedInsertFail := true }

/-- Observable outcome of one `mca_uart_handle_rx` invocation. -/
structure RxResult where
  /-- Byte count requested from the largest bulk read issued
  (`MCA_REG_UART_RX_ERRORS` or `MCA_REG_UART_RHR`); 0 if none was issued. -/
  maxBulkReadReq : Nat
  /-- Increment of `port->icount.rx`. -/
  rxCount : Nat
  /-- Final loop counters (zeros when the loop was never entered). -/
  loop : RxCounters
  /-- `tty_flip_buffer_push` was called (the `exit` label). -/
  flushed : Bool
  /-- `dev_err` for a failed RXLVL read. -/
  loggedRxlvlFail : Bool
  /-- `dev_err` for a failed LSR read. -/
  loggedLsrFail : Bool
  /-- `dev_err` for a failed RX_ERRORS bulk read. -/
  loggedErrFail : Bool
  /-- `dev_warn` for the first failed RHR bulk read (retry announced). -/
  loggedDataRetry : Bool
  /-- `dev_err` for the second failed RHR bulk read (abort). -/
  loggedDataFail : Bool

/-- Result of the early `return` paths before the `exit` label. -/
def rxEarlyReturn : RxResult :=
  { maxBulkReadReq := 0, rxCount := 0, loop := rxCountersInit,
    flushed := false, loggedRxlvlFail := false, loggedLsrFail := false,
    loggedErrFail := false, loggedDataRetry := false,
    loggedDataFail := false }

/-- The error-vector stage of `mca_uart_handle_rx` (lines 502-521): its
outcome is either an early return (`none`, when the LSR read or the
error-vector bulk read failed), or the possibly demoted `has_errors` flag
plus the per-byte error-code oracle. -/
def rxErrStage (inp : RxInput) : Option (Bool × (Nat → Nat)) :=
  if inp.has_errors then
    match inp.lsrRead with
    | none => none
    | some lsr =>
      if lsr ≠ 0 then
        match inp.errBulkRead with
        | none => none
        | some errf => some (true, errf)
      else some (false, fun _ => 0)
  else some (false, fun _ => 0)

/-- The data bulk read with its single retry (lines 523-533): the first
successful `regmap_bulk_read(MCA_REG_UART_RHR, ...)` result, `none` when
both attempts failed. -/
def rxDataRead (inp : RxInput) : Option (Nat → Nat) :=
  inp.dataBulkRead1.orElse (fun _ => inp.dataBulkRead2)

/-- Shallow embedding of `mca_uart_handle_rx` (lines 479-578). -/
def mca_uart_handle_rx (inp : RxInput) : RxResult :=
  match inp.rxlvlRead with
  | none => { rxEarlyReturn with loggedRxlvlFail := true }
  | some rxlen =>
    if rxlen = 0 then rxEarlyReturn
    else
      match rxErrStage inp with
      | none =>
        if inp.lsrRead.isNone then
          { rxEarlyReturn with loggedLsrFail := true }
        else
          { rxEarlyReturn with
            maxBulkReadReq := rxlen
            loggedErrFail := true }
      | some (hasErr, errf) =>
        let retry := inp.dataBulkRead1.isNone
        match rxDataRead inp with
        | none =>
          -- second consecutive data read failure: goto exit
          { rxEarlyReturn with
            maxBulkReadReq := rxlen
            flushed := true
            loggedDataRetry := true
            loggedDataFail := true }
        | some dataf =>
          let pairs := (List.range rxlen).map (fun i => (dataf i, errf i))
          let loopRes := rxLoop { inp with has_errors := hasErr }
            pairs 0 rxCountersInit
          { maxBulkReadReq := rxlen
            rxCount := rxlen
            loop := loopRes
            flushed := true
            loggedRxlvlFail := false
            loggedLsrFail := false
            loggedErrFail := false
            loggedDataRetry := retry
            loggedDataFail := false }

/-! ## IRQ Dispatcher: `mca_uart_irq_handler` (lines 580-609) -/

/-- Oracle inputs of one `mca_uart_irq_handler` invocation. -/
structure IrqInput where
  /-- Result of `regmap_read(MCA_REG_UART_IIR)`. -/
  iirRead : Option Nat
  /-- Oracles for the inline RX Engine run (its `has_errors` field is
  overwritten from the IIR bits). -/
  rx : RxInput
  /-- `work_pending(&mca_uart->tx_work)` at the scheduling point. -/
  txWorkPending : Bool

/-- Observable outcome of one `mca_uart_irq_handler` invocation. -/
structure IrqResult where
  /-- The shared mutex is still held when the handler returns. -/
  mutexHeldAtReturn : Bool
  /-- The handler returned `IRQ_HANDLED` (it always does). -/
  handled : Bool
  /-- The inline RX Engine run, when the RHR status bit was set. -/
  rxRun : Option RxResult
  /-- A TX-engine run is queued when the handler returns. -/
  txWorkQueuedAfter : Bool
  /-- `dev_err` for a failed IIR read. -/
  loggedIirFail : Bool

/-- Shallow embedding of `mca_uart_irq_handler` (lines 580-609).  The
function acquires the mutex first; `mutexHeldAtReturn` tracks whether a
matching `mutex_unlock` ran before the `return`. -/
def mca_uart_irq_handler (inp : IrqInput) : IrqResult :=
  -- mutex_lock(&mca_uart->mutex);
  match inp.iirRead with
  | none =>
    -- return IRQ_HANDLED with no mutex_unlock on this path (line 593)
    { mutexHeldAtReturn := true, handled := true, rxRun := none,
      txWorkQueuedAfter := inp.txWorkPending, loggedIirFail := true }
  | some iir =>
    let rxRun :=
      if iir &&& MCA_REG_UART_IIR_RHR ≠ 0 then
        some (mca_uart_handle_rx
          { inp.rx with has_errors := iir &&& MCA_REG_UART_IIR_RLSE != 0 })
      else none
    let txq :=
      if iir &&& MCA_REG_UART_IIR_THR ≠ 0 then true else inp.txWorkPending
    -- mutex_unlock(&mca_uart->mutex); return IRQ_HANDLED;
    { mutexHeldAtReturn := false, handled := true, rxRun := rxRun,
      txWorkQueuedAfter := txq, loggedIirFail := false }

/-! ## Deferred Control Worker: `mca_uart_delayed_work_proc`
(lines 611-656) -/

/-- Inputs of one `mca_uart_delayed_work_proc` run: the pending-work
bitmask observed after taking the mutex, the old register values, and the
write outcomes. -/
structure WorkerInput where
  /-- `mca_uart->pending_work` as observed by this run. -/
  pending : Nat
  /-- Old value of `MCA_REG_UART_IER`. -/
  ierOld : Nat
  /-- Old value of `MCA_REG_UART_CFG0`. -/
  cfg0Old : Nat
  /-- Old value of `MCA_REG_UART_MSR`. -/
  msrOld : Nat
  /-- `regmap_update_bits(MCA_REG_UART_IER, ...)` succeeds. -/
  ierWriteOk : Bool
  /-- `regmap_update_bits(MCA_REG_UART_CFG0, ...)` succeeds. -/
  cfg0WriteOk : Bool
  /-- `regmap_update_bits(MCA_REG_UART_MSR, ...)` succeeds. -/
  msrWriteOk : Bool

/-- Observable outcome of one `mca_uart_delayed_work_proc` run. -/
structure WorkerResult where
  /-- The shared mutex is still held when the run returns. -/
  mutexHeldAtReturn : Bool
  /-- Mask argument of the IER `regmap_update_bits` call. -/
  ierMaskUsed : Nat
  /-- Mask argument of the CFG0 `regmap_update_bits` call. -/
  cfg0MaskUsed : Nat
  /-- Value argument of the CFG0 `regmap_update_bits` call. -/
  cfg0ValUsed : Nat
  /-- IER register value after the run. -/
  ierNew : Nat
  /-- CFG0 register value after the run. -/
  cfg0New : Nat
  /-- MSR register value after the run. -/
  msrNew : Nat
  /-- The IER update was issued at all. -/
  ierWriteIssued : Bool
  /-- The CFG0 update was issued at all. -/
  cfg0WriteIssued : Bool
  /-- The MSR update was issued at all. -/
  msrWriteIssued : Bool
  /-- `mca_uart->pending_work` when the run returns. -/
  pendingAfter : Nat
  deriving Repr, DecidableEq

/-- Shallow embedding of `mca_uart_delayed_work_proc` (lines 611-656). -/
def mca_uart_delayed_work_proc (inp : WorkerInput) : WorkerResult :=
  -- mutex_lock(&mca_uart->mutex);
  if inp.pending = 0 then
    -- return with no mutex_unlock on this path (line 624)
    { mutexHeldAtReturn := true, ierMaskUsed := 0, cfg0MaskUsed := 0,
      cfg0ValUsed := 0, ierNew := inp.ierOld, cfg0New := inp.cfg0Old,
      msrNew := inp.msrOld, ierWriteIssued := false,
      cfg0WriteIssued := false, msrWriteIssued := false,
      pendingAfter := inp.pending }
  else
    let ier_mask :=
      (if inp.pending &&& WORK_STOP_RX ≠ 0 then MCA_REG_UART_IER_RHR else 0) |||
      (if inp.pending &&& WORK_STOP_TX ≠ 0 then MCA_REG_UART_IER_THR else 0)
    let cfg0_mask :=
      (if inp.pending &&& WORK_STOP_RX ≠ 0 then MCA_REG_UART_CFG0_CRX else 0) |||
      (if inp.pending &&& WORK_STOP_TX ≠ 0 then MCA_REG_UART_CFG0_CTX else 0)
    let ierNew :=
      if inp.ierWriteOk then regmapUpdateBits inp.ierOld ier_mask 0
      else inp.ierOld
    -- value written to CFG0, verbatim from the source (line 639):
    -- MCA_REG_UART_CFG0_CRX | MCA_REG_UART_CFG0_CRX
    let cfg0_val := MCA_REG_UART_CFG0_CRX ||| MCA_REG_UART_CFG0_CRX
    let cfg0New :=
      if inp.cfg0WriteOk then regmapUpdateBits inp.cfg0Old cfg0_mask cfg0_val
      else inp.cfg0Old
    let rtsRequested :=
      inp.pending &&& WORK_SET_RTS ≠ 0 ∨ inp.pending &&& WORK_CLEAR_RTS ≠ 0
    let msr_mask :=
      if inp.pending &&& WORK_SET_RTS ≠ 0 then MCA_REG_UART_MSR_RTS else 0
    let msrNew :=
      if rtsRequested then
        if inp.msrWriteOk then
          regmapUpdateBits inp.msrOld MCA_REG_UART_MSR_RTS msr_mask
        else inp.msrOld
      else inp.msrOld
    -- mca_uart->pending_work = 0; mutex_unlock(&mca_uart->mutex);
    { mutexHeldAtReturn := false, ierMaskUsed := ier_mask,
      cfg0MaskUsed := cfg0_mask, cfg0ValUsed := cfg0_val,
      ierNew := ierNew, cfg0New := cfg0New, msrNew := msrNew,
      ierWriteIssued := true, cfg0WriteIssued := true,
      msrWriteIssued := decide rtsRequested, pendingAfter := 0 }

/-- Shallow embedding of `mca_uart_tx_work_proc` (lines 658-667): take the
mutex, run the TX Engine, release the mutex.  The second component is
whether the mutex is still held at return (it never is). -/
def mca_uart_tx_work_proc (inp : TxInput) : TxResult × Bool :=
  (mca_uart_handle_tx inp, false)

/-! ## `mca_uart_tx_empty` (lines 104-121) -/

/-- Shallow embedding of `mca_uart_tx_empty`: the argument is the result
of `regmap_read(MCA_REG_UART_TXLVL)`. -/
def mca_uart_tx_empty (txlvlRead : Option Nat) : Nat :=
  match txlvlRead with
  | none => TIOCSER_TEMT
  | some txlvl => if txlvl = MCA_UART_TX_FIFO_SIZE then TIOCSER_TEMT else 0

/-! ## `mca_uart_set_termios` (lines 160-252) -/

/-- Modelled from the spec: CFG1 bit selecting two stop bits. -/
def MCA_REG_UART_CFG1_TWO_STOPBITS : Nat := 1

/-- Modelled from the spec: CFG1 bit enabling parity. -/
def MCA_REG_UART_CFG1_PARITY_EN : Nat := 2

/-- Modelled from the spec: CFG1 bit selecting odd parity. -/
def MCA_REG_UART_CFG1_PARITY_ODD : Nat := 4

/-- Modelled from the spec: CFG1 bit enabling automatic CTS. -/
def MCA_REG_UART_CFG1_CTS_EN : Nat := 8

/-- Modelled from the spec: CFG1 bit enabling automatic RTS. -/
def MCA_REG_UART_CFG1_RTS_EN : Nat := 16

/-- Modelled from the spec: baud-select register code for 1200 baud. -/
def MCA_REG_UART_BAUD_1200 : Nat := 0

/-- Modelled from the spec: baud-select register code for 2400 baud. -/
def MCA_REG_UART_BAUD_2400 : Nat := 1

/-- Modelled from the spec: baud-select register code for 4800 baud. -/
def MCA_REG_UART_BAUD_4800 : Nat := 2

/-- Modelled from the spec: baud-select register code for 9600 baud. -/
def MCA_REG_UART_BAUD_9600 : Nat := 3

/-- Modelled from the spec: baud-select register code for 19200 baud. -/
def MCA_REG_UART_BAUD_19200 : Nat := 4

/-- Modelled from the spec: baud-select register code for 38400 baud. -/
def MCA_REG_UART_BAUD_38400 : Nat := 5

/-- Modelled from the spec: baud-select register code for 57600 baud. -/
def MCA_REG_UART_BAUD_57600 : Nat := 6

/-- Modelled from the spec: baud-select register code for 115200 baud. -/
def MCA_REG_UART_BAUD_115200 : Nat := 7

/-- Modelled from the spec: baud-select register code for 230400 baud. -/
def MCA_REG_UART_BAUD_230400 : Nat := 8

/-- `MCA_UART_DEFAULT_BAUD_REG` (mca-cc6ul-uart.c line 35). -/
def MCA_UART_DEFAULT_BAUD_REG : Nat := MCA_REG_UART_BAUD_9600

/-- Inputs of one `mca_uart_set_termios` call: the relevant `c_cflag`
bits, the port's flow-control capability flags, the negotiated baud rate
(result of the external `uart_get_baud_rate`), and write outcomes. -/
structure TermiosInput where
  /-- `termios->c_cflag & CSTOPB`. -/
  cstopb : Bool
  /-- `termios->c_cflag & PARENB`. -/
  parenb : Bool
  /-- `termios->c_cflag & PARODD`. -/
  parodd : Bool
  /-- `termios->c_cflag & CRTSCTS` before masking. -/
  crtscts : Bool
  /-- `mca_uart->has_rtscts & MCA_UART_HAS_RTS`. -/
  hasRts : Bool
  /-- `mca_uart->has_rtscts & MCA_UART_HAS_CTS`. -/
  hasCts : Bool
  /-- `regmap_write(MCA_REG_UART_CFG1, cfg1)` succeeds. -/
  cfg1WriteOk : Bool
  /-- Baud rate returned by `uart_get_baud_rate`. -/
  baudrate : Nat
  /-- `regmap_write(MCA_REG_UART_BAUD, ...)` succeeds. -/
  baudWriteOk : Bool

/-- Observable outcome of one `mca_uart_set_termios` call. -/
structure TermiosResult where
  /-- Value written to `MCA_REG_UART_CFG1`. -/
  cfg1Val : Nat
  /-- Value passed to `regmap_write(MCA_REG_UART_BAUD, ...)`, `none` when
  that write was never issued. -/
  baudWriteIssued : Option Nat
  /-- `dev_warn "Baud rate %d not supported"` was emitted. -/
  warnedBaud : Bool
  /-- `dev_err` for a failed CFG1 write. -/
  loggedCfg1Fail : Bool
  /-- `dev_err` for a failed BAUD write. -/
  loggedBaudFail : Bool
  /-- `UPSTAT_AUTOCTS` set in `port->status` by this call. -/
  autoCts : Bool
  /-- `UPSTAT_AUTORTS` set in `port->status` by this call. -/
  autoRts : Bool
  deriving Repr, DecidableEq

/-- The `switch (baudrate)` of `mca_uart_set_termios` (lines 211-245):
the register code written and whether the unsupported-baud warning was
emitted. -/
def mcaBaudSwitch (baudrate : Nat) : Nat × Bool :=
  match baudrate with
  | 1200 => (MCA_REG_UART_BAUD_1200, false)
  | 2400 => (MCA_REG_UART_BAUD_2400, false)
  | 4800 => (MCA_REG_UART_BAUD_4800, false)
  | 9600 => (MCA_REG_UART_BAUD_9600, false)
  | 19200 => (MCA_REG_UART_BAUD_19200, false)
  | 38400 => (MCA_REG_UART_BAUD_38400, false)
  | 57600 => (MCA_REG_UART_BAUD_57600, false)
  | 115200 => (MCA_REG_UART_BAUD_115200, false)
  | 230400 => (MCA_REG_UART_BAUD_230400, false)
  | _ => (MCA_UART_DEFAULT_BAUD_REG, true)

/-- Shallow embedding of `mca_uart_set_termios` (lines 160-252). -/
def mca_uart_set_termios (inp : TermiosInput) : TermiosResult :=
  -- if (!mca_uart->has_rtscts) termios->c_cflag &= ~CRTSCTS;
  let crtscts := inp.crtscts && (inp.hasRts || inp.hasCts)
  let cfg1 :=
    (if inp.cstopb then MCA_REG_UART_CFG1_TWO_STOPBITS else 0) |||
    (if inp.parenb then MCA_REG_UART_CFG1_PARITY_EN else 0) |||
    (if inp.parodd then MCA_REG_UART_CFG1_PARITY_ODD else 0) |||
    (if crtscts && inp.hasCts then MCA_REG_UART_CFG1_CTS_EN else 0) |||
    (if crtscts && inp.hasRts then MCA_REG_UART_CFG1_RTS_EN else 0)
  let autoCts := crtscts && inp.hasCts
  let autoRts := crtscts && inp.hasRts
  if !inp.cfg1WriteOk then
    { cfg1Val := cfg1, baudWriteIssued := none, warnedBaud := false,
      loggedCfg1Fail := true, loggedBaudFail := false,
      autoCts := autoCts, autoRts := autoRts }
  else
    let bw := mcaBaudSwitch inp.baudrate
    { cfg1Val := cfg1, baudWriteIssued := some bw.1, warnedBaud := bw.2,
      loggedCfg1Fail := false, loggedBaudFail := !inp.baudWriteOk,
      autoCts := autoCts, autoRts := autoRts }

/-! ## Interleaving model for the pending-work bitmask (claim C9)

`mca_uart->pending_work` is mutated by `mca_uart_stop_tx` /
`mca_uart_stop_rx` without holding the mutex (they run in atomic context,
lines 70-92), and read / zeroed by `mca_uart_delayed_work_proc` under the
mutex.  Each C statement touching the shared fields is one atomic step;
the worker's statements are interleaved with setter calls. -/

/-- Shared state plus the worker's locals and the device-visible effects
of one worker run. -/
structure RaceState where
  /-- `mca_uart->pending_work`. -/
  pending : Nat
  /-- `work_pending(&mca_uart->delayed_work)`: queued but not started. -/
  delayedQueued : Bool
  /-- Worker local: the early `return` was taken. -/
  returned : Bool
  /-- Worker local `ier_mask`. -/
  ier_mask : Nat
  /-- Worker local `cfg0_mask`. -/
  cfg0_mask : Nat
  /-- Device effect: IER bits cleared by the worker's IER update. -/
  ierClearedBits : Nat
  /-- Device effect: mask used by the worker's CFG0 update. -/
  cfg0MaskedBits : Nat
  /-- Device effect: the worker issued the MSR (RTS) update. -/
  msrWritten : Bool
  deriving Repr, DecidableEq

/-- Atomic steps: the seven statements of `mca_uart_delayed_work_proc`
that touch shared state or the bus, and the bodies of `mca_uart_stop_tx`
and `mca_uart_stop_rx`. -/
inductive RaceAct where
  /-- `if (!mca_uart->pending_work) return;` (line 623). -/
  | workerCheck
  /-- `if (pending_work & WORK_STOP_RX) { ier_mask |= ...; cfg0_mask |= ...; }` -/
  | workerMaskRx
  /-- `if (pending_work & WORK_STOP_TX) { ier_mask |= ...; cfg0_mask |= ...; }` -/
  | workerMaskTx
  /-- `regmap_update_bits(MCA_REG_UART_IER, ier_mask, 0)` (line 634). -/
  | workerIer
  /-- `regmap_update_bits(MCA_REG_UART_CFG0, cfg0_mask, ...)` (line 638). -/
  | workerCfg0
  /-- The RTS block (lines 643-652). -/
  | workerRts
  /-- `mca_uart->pending_work = 0;` (line 654). -/
  | workerClear
  /-- `mca_uart_stop_tx` body: `pending_work |= WORK_STOP_TX;` then
  `if (!work_pending(&delayed_work)) schedule_work(&delayed_work);`. -/
  | stopTxCall
  /-- `mca_uart_stop_rx` body, analogous. -/
  | stopRxCall
  deriving Repr, DecidableEq

/-- Small-step semantics of one atomic action.  Worker steps after the
early return are no-ops. -/
def raceStep (s : RaceState) (a : RaceAct) : RaceState :=
  match a with
  | .workerCheck =>
    if s.returned then s
    else if s.pending = 0 then { s with returned := true } else s
  | .workerMaskRx =>
    if s.returned then s
    else if s.pending &&& WORK_STOP_RX ≠ 0 then
      { s with ier_mask := s.ier_mask ||| MCA_REG_UART_IER_RHR
               cfg0_mask := s.cfg0_mask ||| MCA_REG_UART_CFG0_CRX }
    else s
  | .workerMaskTx =>
    if s.returned then s
    else if s.pending &&& WORK_STOP_TX ≠ 0 then
      { s with ier_mask := s.ier_mask ||| MCA_REG_UART_IER_THR
               cfg0_mask := s.cfg0_mask ||| MCA_REG_UART_CFG0_CTX }
    else s
  | .workerIer =>
    if s.returned then s
    else { s with ierClearedBits := s.ierClearedBits ||| s.ier_mask }
  | .workerCfg0 =>
    if s.returned then s
    else { s with cfg0MaskedBits := s.cfg0MaskedBits ||| s.cfg0_mask }
  | .workerRts =>
    if s.returned then s
    else if s.pending &&& WORK_SET_RTS ≠ 0 ∨ s.pending &&& WORK_CLEAR_RTS ≠ 0 then
      { s with msrWritten := true }
    else s
  | .workerClear =>
    if s.returned then s else { s with pending := 0 }
  | .stopTxCall =>
    { s with pending := s.pending ||| WORK_STOP_TX, delayedQueued := true }
  | .stopRxCall =>
    { s with pending := s.pending ||| WORK_STOP_RX, delayedQueued := true }

/-- Run a schedule of atomic actions. -/
def raceRun (acts : List RaceAct) (s : RaceState) : RaceState :=
  acts.foldl raceStep s

/-- The statement sequence of one full `mca_uart_delayed_work_proc` run. -/
def workerSeq : List RaceAct :=
  [.workerCheck, .workerMaskRx, .workerMaskTx, .workerIer, .workerCfg0,
   .workerRts, .workerClear]

/-- State at the start of a worker run: fresh locals, no device effects
yet, the work item already dequeued (`work_pending` false). -/
def raceStart (pending : Nat) : RaceState :=
  { pending := pending, delayedQueued := false, returned := false,
    ier_mask := 0, cfg0_mask := 0, ierClearedBits := 0,
    cfg0MaskedBits := 0, msrWritten := false }

/-! ## Concrete oracle inputs used by the theorems below -/

/-- An RX oracle where every bus access fails; the sink accepts all. -/
def rxInputAllFail : RxInput :=
  { has_errors := false, rxlvlRead := none, lsrRead := none,
    errBulkRead := none, dataBulkRead1 := none, dataBulkRead2 := none,
    sysrq := fun _ => false, ttyAccept := fun _ => true }

/-- An RX oracle reporting a FIFO level of 200 (beyond the 128-byte local
buffer), with the data read succeeding and the sink accepting all. -/
def rxInputLevel200 : RxInput :=
  { has_errors := false, rxlvlRead := some 200, lsrRead := none,
    errBulkRead := none, dataBulkRead1 := some (fun _ => 65),
    dataBulkRead2 := none, sysrq := fun _ => false,
    ttyAccept := fun _ => true }

/-- An RX oracle reporting 2 bytes, with the sink rejecting the first
insertion attempt. -/
def rxInputRejectFirst : RxInput :=
  { has_errors := false, rxlvlRead := some 2, lsrRead := none,
    errBulkRead := none, dataBulkRead1 := some (fun i => 65 + i),
    dataBulkRead2 := none, sysrq := fun _ => false,
    ttyAccept := fun _ => false }

/-- An RX oracle reporting 3 bytes with both data bulk reads failing. -/
def rxInputDataFail : RxInput :=
  { has_errors := false, rxlvlRead := some 3, lsrRead := none,
    errBulkRead := none, dataBulkRead1 := none, dataBulkRead2 := none,
    sysrq := fun _ => false, ttyAccept := fun _ => true }

/-- An RX oracle reporting 3 bytes with everything succeeding. -/
def rxInputClean : RxInput :=
  { has_errors := false, rxlvlRead := some 3, lsrRead := none,
    errBulkRead := none, dataBulkRead1 := some (fun i => 97 + i),
    dataBulkRead2 := none, sysrq := fun _ => false,
    ttyAccept := fun _ => true }

/-- A worker input with no pending bits and all writes succeeding. -/
def workerInputIdle : WorkerInput :=
  { pending := 0, ierOld := 0, cfg0Old := 0, msrOld := 0,
    ierWriteOk := true, cfg0WriteOk := true, msrWriteOk := true }

/-- A worker input with only `WORK_STOP_TX` pending; the old CFG0 value
has the TX-FIFO-reset bit set, the old IER value has all three interrupt
enables set. -/
def workerInputStopTx : WorkerInput :=
  { pending := WORK_STOP_TX
    ierOld := MCA_REG_UART_IER_THR ||| MCA_REG_UART_IER_RHR |||
              MCA_REG_UART_IER_RLSE
    cfg0Old := MCA_REG_UART_CFG0_CTX ||| MCA_REG_UART_CFG0_TXEN |||
               MCA_REG_UART_CFG0_RXEN
    msrOld := 0, ierWriteOk := true, cfg0WriteOk := true,
    msrWriteOk := true }

/-- A TX input passing the activity checks whose headroom read reports
200, beyond the 128-byte staging buffer. -/
def txInputCorrupt : TxInput :=
  { ttyPresent := true, txStopped := false, xmitBuf := [1, 2, 3, 4, 5],
    txlvlRead := some 200, bulkWriteOk := true, txWorkPending := false }

/-- A TX input passing the activity checks with 3 pending bytes and a
headroom of 2. -/
def txInputSmall : TxInput :=
  { ttyPresent := true, txStopped := false, xmitBuf := [9, 8, 7],
    txlvlRead := some 2, bulkWriteOk := true, txWorkPending := false }

/-! ## Claim theorems -/

/-- Claim C1 (code bug): the claim says every holder of the shared bus
mutex releases it on every control path.  The code does not: the IRQ
Dispatcher returns with the mutex still held when the IIR status read
fails (line 593), and the Deferred Control Worker returns with the mutex
still held when it finds no pending bits (line 624).  The normal IRQ path
does release it. -/
theorem mutex_leaked_on_early_return_paths :
    (mca_uart_irq_handler
      { iirRead := none, rx := rxInputAllFail,
        txWorkPending := false }).mutexHeldAtReturn = true ∧
    (mca_uart_delayed_work_proc workerInputIdle).mutexHeldAtReturn = true ∧
    (mca_uart_irq_handler
      { iirRead := some 0, rx := rxInputAllFail,
        txWorkPending := false }).mutexHeldAtReturn = false ∧
    (mca_uart_delayed_work_proc workerInputStopTx).mutexHeldAtReturn = false :=
  ⟨rfl, rfl, rfl, rfl⟩

set_option maxRecDepth 4000 in
/-- Claim C2 (code bug): the claim says an RX FIFO level above the
128-byte local buffer capacity is treated as corrupt — logged and
discarded, with no oversized bulk read.  The code has no such check
(unlike the TX engine, lines 450-456): with a reported level of 200 it
issues a 200-byte bulk read into the 128-byte stack buffer `rx_buf` and
forwards all 200 bytes. -/
theorem rx_level_guard_missing :
    (mca_uart_handle_rx rxInputLevel200).maxBulkReadReq = 200 ∧
    MCA_UART_RX_FIFO_SIZE <
      (mca_uart_handle_rx rxInputLevel200).maxBulkReadReq ∧
    (mca_uart_handle_rx rxInputLevel200).loop.pushed.length = 200 ∧
    (mca_uart_handle_rx rxInputLevel200).flushed = true := by
  refine ⟨rfl, by decide, by decide, rfl⟩

/-- Claim C4 (code bug): with stop-TX pending the worker's IER update
does clear the TX-ready enable bit, but the CFG0 write uses the value
`MCA_REG_UART_CFG0_CRX | MCA_REG_UART_CFG0_CRX` (line 639, an evident
typo for `CRX | CTX`), so the TX-FIFO-reset bit `CTX` is masked in yet
written as 0: the write clears an already-set TX-reset bit instead of
setting it, and the mask never touches the TX/RX enable bits at all. -/
theorem worker_stop_tx_cfg0_write_wrong :
    (mca_uart_delayed_work_proc workerInputStopTx).ierMaskUsed =
      MCA_REG_UART_IER_THR ∧
    (mca_uart_delayed_work_proc workerInputStopTx).ierNew &&&
      MCA_REG_UART_IER_THR = 0 ∧
    (mca_uart_delayed_work_proc workerInputStopTx).cfg0MaskUsed =
      MCA_REG_UART_CFG0_CTX ∧
    (mca_uart_delayed_work_proc workerInputStopTx).cfg0ValUsed &&&
      MCA_REG_UART_CFG0_CTX = 0 ∧
    (mca_uart_delayed_work_proc workerInputStopTx).cfg0New &&&
      MCA_REG_UART_CFG0_CTX = 0 ∧
    (mca_uart_delayed_work_proc workerInputStopTx).cfg0MaskUsed &&&
      (MCA_REG_UART_CFG0_TXEN ||| MCA_REG_UART_CFG0_RXEN) = 0 := by
  decide

/-- Claim C9 (code bug): the claim says a Control State bit set while a
worker run is in progress survives that run's read-and-clear.  The
setters mutate `pending_work` without the mutex (atomic context), and the
worker ends with an unconditional `pending_work = 0` (line 654): in the
interleaving where `mca_uart_stop_tx` fires between the worker's last
read and its clear, the stop-TX bit is wiped without ever being applied,
and the rescheduled second run finds no pending bits and applies
nothing. -/
theorem pending_stop_tx_lost_in_race :
    (raceRun [RaceAct.workerCheck, RaceAct.workerMaskRx,
      RaceAct.workerMaskTx, RaceAct.workerIer, RaceAct.workerCfg0,
      RaceAct.workerRts, RaceAct.stopTxCall, RaceAct.workerClear]
      (raceStart WORK_STOP_RX)).pending = 0 ∧
    (raceRun [RaceAct.workerCheck, RaceAct.workerMaskRx,
      RaceAct.workerMaskTx, RaceAct.workerIer, RaceAct.workerCfg0,
      RaceAct.workerRts, RaceAct.stopTxCall, RaceAct.workerClear]
      (raceStart WORK_STOP_RX)).delayedQueued = true ∧
    (raceRun [RaceAct.workerCheck, RaceAct.workerMaskRx,
      RaceAct.workerMaskTx, RaceAct.workerIer, RaceAct.workerCfg0,
      RaceAct.workerRts, RaceAct.stopTxCall, RaceAct.workerClear]
      (raceStart WORK_STOP_RX)).ierClearedBits &&&
      MCA_REG_UART_IER_THR = 0 ∧
    (raceRun workerSeq (raceStart 0)).ierClearedBits = 0 ∧
    (raceRun workerSeq (raceStart 0)).cfg0MaskedBits = 0 ∧
    (raceRun workerSeq (raceStart 0)).pending = 0 := by
  decide

/-- Claim C10 (confirmed): `mca_uart_tx_empty` reports the transmitter
empty exactly when the TX free-space register reads 128 (the TX FIFO
size), and reports it empty — not an error — when the read fails. -/
theorem tx_empty_spec (r : Option Nat) :
    (r = none → mca_uart_tx_empty r = TIOCSER_TEMT) ∧
    (∀ v, r = some v →
      (mca_uart_tx_empty r = TIOCSER_TEMT ↔ v = MCA_UART_TX_FIFO_SIZE)) := by
  constructor
  · intro h; subst h; rfl
  · intro v h; subst h
    unfold mca_uart_tx_empty
    by_cases hv : v = MCA_UART_TX_FIFO_SIZE <;>
      simp [hv, TIOCSER_TEMT]

/-- The error-code switch never touches the byte-accounting fields of the
loop counters. -/
theorem rxClassify_accounting (err : Nat) (acc : RxCounters) :
    ((rxClassify err acc).2).pushed = acc.pushed ∧
    ((rxClassify err acc).2).sysrqConsumed = acc.sysrqConsumed ∧
    ((rxClassify err acc).2).droppedAfterReject = acc.droppedAfterReject := by
  unfold rxClassify
  split_ifs <;> simp

/-- Per-byte accounting of the RX loop: every byte of the processed list
ends up forwarded, consumed as a sysrq character, or dropped when the
sink rejected an insertion. -/
theorem rxLoop_accounting (inp : RxInput) (l : List (Nat × Nat)) :
    ∀ (ins : Nat) (acc : RxCounters),
      (rxLoop inp l ins acc).pushed.length +
        (rxLoop inp l ins acc).sysrqConsumed +
        (rxLoop inp l ins acc).droppedAfterReject =
      acc.pushed.length + acc.sysrqConsumed + acc.droppedAfterReject +
        l.length := by
  induction l with
  | nil => intro ins acc; simp [rxLoop]
  | cons hd tl ih =>
    intro ins acc
    obtain ⟨ch, err⟩ := hd
    cases hs : inp.sysrq ch with
    | true =>
      simp only [rxLoop, hs, if_true]
      rw [ih]
      simp only [List.length_cons]
      omega
    | false =>
      have hcl := rxClassify_accounting err acc
      cases ha : inp.ttyAccept ins with
      | true =>
        simp only [rxLoop, hs, ha, Bool.false_eq_true, if_false, if_true]
        cases hE : inp.has_errors with
        | true =>
          simp only [hE, if_true]
          rw [ih]
          simp only [List.length_append, List.length_cons, List.length_nil]
          rw [hcl.1, hcl.2.1, hcl.2.2]
          omega
        | false =>
          simp only [hE, Bool.false_eq_true, if_false]
          rw [ih]
          simp only [List.length_append, List.length_cons, List.length_nil]
          omega
      | false =>
        simp only [rxLoop, hs, ha, Bool.false_eq_true, if_false]
        cases hE : inp.has_errors with
        | true =>
          simp only [hE, if_true]
          simp only [List.length_cons]
          rw [hcl.1, hcl.2.1, hcl.2.2]
          omega
        | false =>
          simp only [hE, Bool.false_eq_true, if_false]
          simp only [List.length_cons]
          omega

/-- An RX oracle with errors flagged whose LSR summary read fails. -/
def rxInputLsrFail : RxInput :=
  { has_errors := true, rxlvlRead := some 4, lsrRead := none,
    errBulkRead := none, dataBulkRead1 := some (fun _ => 0),
    dataBulkRead2 := none, sysrq := fun _ => false,
    ttyAccept := fun _ => true }

/-- An RX oracle with errors flagged, a non-zero LSR summary, and a
failing error-vector bulk read. -/
def rxInputErrVecFail : RxInput :=
  { has_errors := true, rxlvlRead := some 4, lsrRead := some 1,
    errBulkRead := none, dataBulkRead1 := some (fun _ => 0),
    dataBulkRead2 := none, sysrq := fun _ => false,
    ttyAccept := fun _ => true }

/-- Claim C3 counterexample: an invocation with a reported FIFO level of
2 whose first `tty_insert_flip_char` is rejected does not abort (no
second data-read failure), yet forwards 0 bytes and counts only 1
overrun: forwarded + overruns = 1 ≠ 2, refuting the claimed equality. -/
theorem rx_accounting_counterexample :
    (mca_uart_handle_rx rxInputRejectFirst).loggedDataFail = false ∧
    (mca_uart_handle_rx rxInputRejectFirst).rxCount = 2 ∧
    (mca_uart_handle_rx rxInputRejectFirst).loop.pushed.length +
      (mca_uart_handle_rx rxInputRejectFirst).loop.overrun ≠ 2 := by
  decide

/-- Claim C3 amended: for every RX invocation that reaches the data bulk
read, bytes forwarded + bytes consumed as sysrq characters + bytes left
unprocessed after a sink rejection (the rejected byte included) equals
the reported FIFO level; when both data bulk reads fail, zero bytes are
forwarded, the abort is logged, and the flush still runs. -/
theorem rx_accounting_amended (inp : RxInput) (n : Nat)
    (h1 : inp.rxlvlRead = some n) (h2 : n ≠ 0)
    (h3 : (rxErrStage inp).isSome = true) :
    ((rxDataRead inp).isSome = true →
      (mca_uart_handle_rx inp).loop.pushed.length +
        (mca_uart_handle_rx inp).loop.sysrqConsumed +
        (mca_uart_handle_rx inp).loop.droppedAfterReject = n) ∧
    ((rxDataRead inp).isSome = false →
      (mca_uart_handle_rx inp).loop.pushed.length = 0 ∧
      (mca_uart_handle_rx inp).loggedDataFail = true ∧
      (mca_uart_handle_rx inp).flushed = true) := by
  obtain ⟨⟨hasErr, errf⟩, hst⟩ := Option.isSome_iff_exists.mp h3
  simp only [mca_uart_handle_rx, h1, hst, if_neg h2]
  cases hD : rxDataRead inp with
  | none =>
    simp [rxEarlyReturn, rxCountersInit]
  | some dataf =>
    constructor
    · intro _
      simp only
      rw [rxLoop_accounting]
      simp [rxCountersInit]
    · intro hcontra
      simp at hcontra

/-- Witness for `rx_accounting_amended`: a clean 3-byte invocation whose
three bytes are all forwarded. -/
theorem rx_accounting_amended_witness :
    (mca_uart_handle_rx rxInputClean).loop.pushed.length +
      (mca_uart_handle_rx rxInputClean).loop.sysrqConsumed +
      (mca_uart_handle_rx rxInputClean).loop.droppedAfterReject = 3 :=
  (rx_accounting_amended rxInputClean 3 rfl (by decide) (by decide)).1
    (by decide)

/-- Claim C6 counterexample: the claim says every RX invocation ends
with a flush, including aborts on a failed register read or a failed
error-vector bulk read.  The code only reaches `tty_flip_buffer_push`
through the `exit` label: a failed FIFO-level read, a failed LSR read and
a failed error-vector bulk read all `return` without flushing. -/
theorem rx_flush_counterexample :
    (mca_uart_handle_rx rxInputAllFail).flushed = false ∧
    (mca_uart_handle_rx rxInputAllFail).loggedRxlvlFail = true ∧
    (mca_uart_handle_rx rxInputLsrFail).flushed = false ∧
    (mca_uart_handle_rx rxInputErrVecFail).flushed = false := by
  decide

/-- Claim C6 amended: the flush runs on every RX invocation that reaches
the data bulk read — the normal path and the twice-failed data-read abort
— while invocations returning earlier (failed FIFO-level read, zero
level, failed LSR read, failed error-vector read) do not flush. -/
theorem rx_flush_amended (inp : RxInput) (n : Nat)
    (h1 : inp.rxlvlRead = some n) (h2 : n ≠ 0)
    (h3 : (rxErrStage inp).isSome = true) :
    (mca_uart_handle_rx inp).flushed = true := by
  obtain ⟨⟨hasErr, errf⟩, hst⟩ := Option.isSome_iff_exists.mp h3
  simp only [mca_uart_handle_rx, h1, hst, if_neg h2]
  cases hD : rxDataRead inp <;> simp

/-- Witness for `rx_flush_amended`: the twice-failed data-read abort
still flushes. -/
theorem rx_flush_amended_witness :
    (mca_uart_handle_rx rxInputDataFail).flushed = true :=
  rx_flush_amended rxInputDataFail 3 rfl (by decide) (by decide)

/-- Claim C5 counterexample: with 5 pending bytes and a reported
headroom of 200 the engine takes the corrupt-value path and advances the
tail by 0, not by `min(5, min(200, 128)) = 5` as the claimed formula
requires. -/
theorem tx_tail_advance_counterexample :
    (mca_uart_handle_tx txInputCorrupt).tailAdvance = 0 ∧
    (mca_uart_handle_tx txInputCorrupt).txCount = 0 ∧
    (mca_uart_handle_tx txInputCorrupt).tailAdvance ≠
      min 5 (min 200 MCA_UART_TX_FIFO_SIZE) := by
  decide

/-- Claim C5 amended: for every TX invocation that passes the activity
checks and whose headroom read succeeds with a value not exceeding the
128-byte staging capacity, the tail advances by exactly
`min(pending, min(headroom, capacity))` and the transmitted-byte counter
increases by the same amount (when the reported headroom exceeds the
capacity the engine instead advances by zero, see the counterexample). -/
theorem tx_tail_advance_amended (inp : TxInput) (hdr : Nat)
    (h1 : inp.ttyPresent = true) (h2 : inp.txStopped = false)
    (h3 : inp.xmitBuf ≠ [])
    (h4 : inp.txlvlRead = some hdr) (h5 : hdr ≤ MCA_UART_TX_FIFO_SIZE) :
    (mca_uart_handle_tx inp).tailAdvance =
      min inp.xmitBuf.length (min hdr MCA_UART_TX_FIFO_SIZE) ∧
    (mca_uart_handle_tx inp).txCount =
      min inp.xmitBuf.length (min hdr MCA_UART_TX_FIFO_SIZE) := by
  have hne : inp.xmitBuf.isEmpty = false := by
    cases hx : inp.xmitBuf with
    | nil => exact absurd hx h3
    | cons a l => rfl
  have hlen : inp.xmitBuf.length ≠ 0 := by
    intro hl
    exact h3 (List.length_eq_zero.mp hl)
  by_cases h0 : hdr = 0
  · subst h0
    simp [mca_uart_handle_tx, h1, h2, hne, h4, hlen, txNoop]
  · have hcap : ¬ hdr > MCA_UART_TX_FIFO_SIZE := by omega
    simp only [mca_uart_handle_tx, h1, h2, hne, h4, Bool.not_true,
      Bool.false_or, Bool.or_self, Bool.false_eq_true, if_false,
      ne_eq, hlen, not_false_iff, if_true, h0, hcap]
    constructor <;> · split_ifs <;> omega

/-- Witness for `tx_tail_advance_amended`: 3 pending bytes, headroom 2,
tail advances by 2. -/
theorem tx_tail_advance_amended_witness :
    (mca_uart_handle_tx txInputSmall).tailAdvance =
      min 3 (min 2 MCA_UART_TX_FIFO_SIZE) ∧
    (mca_uart_handle_tx txInputSmall).txCount =
      min 3 (min 2 MCA_UART_TX_FIFO_SIZE) :=
  tx_tail_advance_amended txInputSmall 2 rfl rfl (by decide) rfl
    (by decide)

/-- Claim C7 (confirmed): for every TX invocation with pending data that
passes the activity checks, a failed headroom read is treated as zero
headroom (and logged), and whenever the effective headroom is zero or
exceeds the 128-byte staging capacity the engine performs no bulk write,
advances the tail by zero, logs the over-capacity case as an invalid
value, and leaves a TX-engine run queued. -/
theorem tx_failsafe (inp : TxInput)
    (h1 : inp.ttyPresent = true) (h2 : inp.txStopped = false)
    (h3 : inp.xmitBuf ≠ [])
    (h4 : inp.txlvlRead = none ∨ inp.txlvlRead = some 0 ∨
      ∃ hdr, inp.txlvlRead = some hdr ∧ MCA_UART_TX_FIFO_SIZE < hdr) :
    (mca_uart_handle_tx inp).bulkWrites = 0 ∧
    (mca_uart_handle_tx inp).tailAdvance = 0 ∧
    (mca_uart_handle_tx inp).txWorkQueuedAfter = true ∧
    (inp.txlvlRead = none →
      (mca_uart_handle_tx inp).loggedReadFail = true) ∧
    (∀ hdr, inp.txlvlRead = some hdr → MCA_UART_TX_FIFO_SIZE < hdr →
      (mca_uart_handle_tx inp).loggedInvalidLvl = true) := by
  have hne : inp.xmitBuf.isEmpty = false := by
    cases hx : inp.xmitBuf with
    | nil => exact absurd hx h3
    | cons a l => rfl
  have hlen : inp.xmitBuf.length ≠ 0 := by
    intro hl
    exact h3 (List.length_eq_zero.mp hl)
  rcases h4 with h4 | h4 | ⟨hdr, h4, h5⟩
  · simp [mca_uart_handle_tx, h1, h2, hne, h4, hlen, txNoop]
  · simp [mca_uart_handle_tx, h1, h2, hne, h4, hlen, txNoop]
  · have h0 : hdr ≠ 0 := by
      intro h0
      rw [h0] at h5
      exact absurd h5 (by decide)
    simp [mca_uart_handle_tx, h1, h2, hne, h4, hlen, h0, h5, txNoop]

/-- Witness for `tx_failsafe`: 5 pending bytes, headroom reported as 200
(beyond capacity): zero writes, zero advance, rescheduled, corruption
logged. -/
theorem tx_failsafe_witness :
    (mca_uart_handle_tx txInputCorrupt).bulkWrites = 0 ∧
    (mca_uart_handle_tx txInputCorrupt).tailAdvance = 0 ∧
    (mca_uart_handle_tx txInputCorrupt).txWorkQueuedAfter = true ∧
    (mca_uart_handle_tx txInputCorrupt).loggedInvalidLvl = true := by
  have h := tx_failsafe txInputCorrupt rfl rfl (by decide)
    (Or.inr (Or.inr ⟨200, rfl, by decide⟩))
  exact ⟨h.1, h.2.1, h.2.2.1, h.2.2.2.2 200 rfl (by decide)⟩

/-- The discrete baud set of the configuration surface (spec section 6). -/
def mcaSupportedBauds : List Nat :=
  [1200, 2400, 4800, 9600, 19200, 38400, 57600, 115200, 230400]

/-- A termios input requesting baud `b`, no parity, one stop bit, no
flow control, with all register writes succeeding. -/
def termiosInputAt (b : Nat) : TermiosInput :=
  { cstopb := false, parenb := false, parodd := false, crtscts := false,
    hasRts := false, hasCts := false, cfg1WriteOk := true,
    baudrate := b, baudWriteOk := true }

/-- Claim C8 (confirmed): once the CFG1 write succeeded, every supported
baud rate maps to its baud-select register code, every other baud rate is
written as the documented 9600 default with the warning emitted, and the
mapping always issues the baud write (it never fails the operation). -/
theorem termios_baud_mapping (inp : TermiosInput)
    (h : inp.cfg1WriteOk = true) :
    (mca_uart_set_termios inp).baudWriteIssued.isSome = true ∧
    (inp.baudrate = 1200 → (mca_uart_set_termios inp).baudWriteIssued =
      some MCA_REG_UART_BAUD_1200) ∧
    (inp.baudrate = 2400 → (mca_uart_set_termios inp).baudWriteIssued =
      some MCA_REG_UART_BAUD_2400) ∧
    (inp.baudrate = 4800 → (mca_uart_set_termios inp).baudWriteIssued =
      some MCA_REG_UART_BAUD_4800) ∧
    (inp.baudrate = 9600 → (mca_uart_set_termios inp).baudWriteIssued =
      some MCA_REG_UART_BAUD_9600) ∧
    (inp.baudrate = 19200 → (mca_uart_set_termios inp).baudWriteIssued =
      some MCA_REG_UART_BAUD_19200) ∧
    (inp.baudrate = 38400 → (mca_uart_set_termios inp).baudWriteIssued =
      some MCA_REG_UART_BAUD_38400) ∧
    (inp.baudrate = 57600 → (mca_uart_set_termios inp).baudWriteIssued =
      some MCA_REG_UART_BAUD_57600) ∧
    (inp.baudrate = 115200 → (mca_uart_set_termios inp).baudWriteIssued =
      some MCA_REG_UART_BAUD_115200) ∧
    (inp.baudrate = 230400 → (mca_uart_set_termios inp).baudWriteIssued =
      some MCA_REG_UART_BAUD_230400) ∧
    (inp.baudrate ∉ mcaSupportedBauds →
      (mca_uart_set_termios inp).baudWriteIssued =
        some MCA_UART_DEFAULT_BAUD_REG ∧
      (mca_uart_set_termios inp).warnedBaud = true) ∧
    (inp.baudrate ∈ mcaSupportedBauds →
      (mca_uart_set_termios inp).warnedBaud = false) := by
  simp only [mca_uart_set_termios, h, Bool.not_true, Bool.false_eq_true,
    if_false]
  unfold mcaBaudSwitch
  split <;> simp_all [mcaSupportedBauds]

/-- Witness for `termios_baud_mapping`: baud 9600 writes the documented
default register code; the unsupported baud 4000 also writes the default,
with the warning emitted and the write still issued. -/
theorem termios_baud_mapping_witness :
    (mca_uart_set_termios (termiosInputAt 9600)).baudWriteIssued =
      some MCA_REG_UART_BAUD_9600 ∧
    (mca_uart_set_termios (termiosInputAt 4000)).baudWriteIssued =
      some MCA_UART_DEFAULT_BAUD_REG ∧
    (mca_uart_set_termios (termiosInputAt 4000)).warnedBaud = true := by
  obtain ⟨hA, h12, h24, h48, h96, hrest⟩ :=
    termios_baud_mapping (termiosInputAt 9600) rfl
  obtain ⟨-, -, -, -, -, -, -, -, -, -, hdef, -⟩ :=
    termios_baud_mapping (termiosInputAt 4000) rfl
  have h4000 := hdef (by decide)
  exact ⟨h96 rfl, h4000.1, h4000.2⟩

/-- Witness for `tx_empty_spec` at the failed read and at a full FIFO. -/
theorem tx_empty_spec_witness :
    mca_uart_tx_empty none = TIOCSER_TEMT ∧
    (mca_uart_tx_empty (some 128) = TIOCSER_TEMT ↔
      (128 : Nat) = MCA_UART_TX_FIFO_SIZE) :=
  ⟨(tx_empty_spec none).1 rfl, (tx_empty_spec (some 128)).2 128 rfl⟩

end McaUart
